import Mathlib

/-
Verification development for the Shopify-to-Slack status updater
(single source file app.py).  The Python code is shallowly embedded:
pure helpers become Lean functions, the in-memory order_threads dict
becomes an explicit association list threaded through the webhook
handler, and the two outbound chat.postMessage calls are modelled by a
pair of success booleans supplied by the environment.  The channel
history fetched from conversations.history is likewise supplied as an
explicit list of messages (newest first, as the Slack API delivers it).
-/

namespace SlackReply

/-- Truthiness of an optional string, after Python, where both None and
the empty string are falsy. -/
def pyTruthy : Option String → Bool
  | none => false
  | some s => s != ""

/-- Python str.lower for the ASCII strings handled by the app. -/
def pyLower (s : String) : String := String.mk (s.data.map Char.toLower)

/-- Helper for pyTitle: tracks whether the previous character was a
cased (alphabetic) character. -/
def pyTitleAux : Bool → List Char → List Char
  | _, [] => []
  | prevAlpha, c :: rest =>
    if c.isAlpha then
      (if prevAlpha then c.toLower else c.toUpper) :: pyTitleAux true rest
    else
      c :: pyTitleAux false rest

/-- Python str.title for ASCII strings: the first cased character of
every run of cased characters is uppercased, the rest lowercased. -/
def pyTitle (s : String) : String := String.mk (pyTitleAux false s.data)

/-- Characters matched by the regex class backslash-s (ASCII part). -/
def isSpaceChar (c : Char) : Bool :=
  c == ' ' || c == '\t' || c == '\n' || c == '\r' || c == '\x0b' || c == '\x0c'

/-- Characters matched by the regex class backslash-w (ASCII part). -/
def isWordChar (c : Char) : Bool := c.isAlphanum || c == '_'

/-- Consume the given pattern characters case-insensitively from the
front of the input; on success return the remaining input. -/
def dropCaseless : List Char → List Char → Option (List Char)
  | [], s => some s
  | _ :: _, [] => none
  | p :: ps, c :: cs => if c.toLower == p then dropCaseless ps cs else none

/-- One attempt, at a fixed start position, of the search for the
case-insensitive pattern: literal st.order, then greedy whitespace,
then an optional hash sign, then a nonempty maximal digit run, which
is the captured group (app.py pattern 1). -/
def stOrderAt (s : List Char) : Option (List Char) :=
  match dropCaseless ['s', 't', '.', 'o', 'r', 'd', 'e', 'r'] s with
  | none => none
  | some rest =>
    let rest1 := rest.dropWhile isSpaceChar
    let rest2 := match rest1 with
      | '#' :: r => r
      | r => r
    let ds := rest2.takeWhile Char.isDigit
    if ds.isEmpty then none else some ds

/-- re.search for pattern 1: try every start position left to right. -/
def searchSTOrder : List Char → Option (List Char)
  | [] => none
  | c :: rest =>
    match stOrderAt (c :: rest) with
    | some ds => some ds
    | none => searchSTOrder rest

/-- re.search for pattern 2 of app.py: a hash sign followed by a
nonempty maximal digit run, leftmost occurrence. -/
def searchHash : List Char → Option (List Char)
  | [] => none
  | c :: rest =>
    if c == '#' then
      if (rest.takeWhile Char.isDigit).isEmpty then searchHash rest
      else some (rest.takeWhile Char.isDigit)
    else searchHash rest

/-- Word-boundary condition after a digit run: end of input or a
non-word character. -/
def boundaryOk : List Char → Bool
  | [] => true
  | c :: _ => !isWordChar c

/-- re.search for pattern 3 of app.py: a maximal digit run of length at
least four delimited by word boundaries on both sides, leftmost
occurrence.  The boolean argument records whether the character before
the current position is a word character. -/
def searchLong : Bool → List Char → Option (List Char)
  | _, [] => none
  | prevWord, c :: rest =>
    if Char.isDigit c && !prevWord then
      if 4 ≤ (c :: rest.takeWhile Char.isDigit).length ∧
          boundaryOk (rest.dropWhile Char.isDigit) = true then
        some (c :: rest.takeWhile Char.isDigit)
      else searchLong true rest
    else searchLong (isWordChar c) rest

/-- app.py extract_order_number_from_text: try the ST.order pattern,
then the hash pattern, then the long-digit-run pattern. -/
def extract_order_number_from_text (text : String) : Option String :=
  if text = "" then none
  else
    match searchSTOrder text.data with
    | some ds => some (String.mk ds)
    | none =>
      match searchHash text.data with
      | some ds => some (String.mk ds)
      | none => (searchLong false text.data).map String.mk

/-- Python str.strip on a character list: drop the whitespace run at
each end. -/
def pyStrip (l : List Char) : List Char :=
  ((l.dropWhile isSpaceChar).reverse.dropWhile isSpaceChar).reverse

/-- app.py order-number cleaning: str(order_number).replace, removing
every hash character, then strip. -/
def cleanOrderNumber (s : String) : String :=
  String.mk (pyStrip (s.data.filter (fun c => !(c == '#'))))

/-- A Slack channel message as consumed by the locator: its text, its
timestamp identifier, and its optional thread parent timestamp. -/
structure SlackMsg where
  text : String
  ts : String
  thread_ts : Option String
deriving Repr, DecidableEq

/-- app.py skip condition in the history scan: the message is a
threaded reply (truthy thread_ts different from its own ts). -/
def isThreadReply (m : SlackMsg) : Bool :=
  match m.thread_ts with
  | none => false
  | some t => t != "" && t != m.ts

/-- The per-text matching test of the history scan: the extracted
order number is truthy and equals the cleaned target number. -/
def textMatches (text cleanNum : String) : Bool :=
  match extract_order_number_from_text text with
  | none => false
  | some n => n != "" && n == cleanNum

/-- The Message Matcher of the spec, as the code realises it: a text is
the announcement for an order key when the number extracted from it
equals the cleaned key. -/
def is_order_announcement (text orderKey : String) : Bool :=
  textMatches text (cleanOrderNumber orderKey)

/-- The per-message test of the history scan: not a threaded reply and
the text matches. -/
def msgMatches (m : SlackMsg) (cleanNum : String) : Bool :=
  !isThreadReply m && textMatches m.text cleanNum

/-- The scan loop of find_order_message_in_channel: messages are
visited in the order the API delivered them (newest first); the first
match wins and its timestamp is returned. -/
def findRoot (cleanNum : String) : List SlackMsg → Option String
  | [] => none
  | m :: rest => if msgMatches m cleanNum then some m.ts else findRoot cleanNum rest

/-- app.py find_order_message_in_channel over an explicitly supplied
history window (the code fetches the most recent 100 messages of the
single configured channel). -/
def find_order_message_in_channel (messages : List SlackMsg) (order_number : String) :
    Option String :=
  findRoot (cleanOrderNumber order_number) messages

/-- One ThreadMapping of the order-tracking store: the dict value that
save_order_mapping writes under an order number. -/
structure OrderMapping where
  ts : String
  channel : String
  last_payment : Option String
  last_fulfillment : Option String
deriving Repr, DecidableEq

/-- The in-memory order_threads dict, as an association list keyed by
the cleaned order number. -/
abbrev Store := List (String × OrderMapping)

/-- Dict lookup on an association list. -/
def lookupKey {α : Type} : List (String × α) → String → Option α
  | [], _ => none
  | (k, v) :: rest, key => if k = key then some v else lookupKey rest key

/-- Dict assignment on an association list: replace an existing entry
for the key, else add one. -/
def putKey {α : Type} : List (String × α) → String → α → List (String × α)
  | [], key, v => [(key, v)]
  | (k, w) :: rest, key, v =>
    if k = key then (key, v) :: rest else (k, w) :: putKey rest key v

/-- app.py save_order_mapping: writes a whole fresh mapping dict for
the order, with the configured channel and the two last-status
arguments (the Python defaults are None). -/
def save_order_mapping (cfg : String) (store : Store)
    (order_number thread_ts : String)
    (last_payment last_fulfillment : Option String) : Store :=
  putKey store order_number
    { ts := thread_ts, channel := cfg,
      last_payment := last_payment, last_fulfillment := last_fulfillment }

/-- app.py get_order_mapping. -/
def get_order_mapping (store : Store) (order_number : String) : Option OrderMapping :=
  lookupKey store order_number

/-- app.py payment_status_map: normalized value to (emoji, text). -/
def payment_status_map : List (String × String × String) := [
  ("paid", "✅", "Payment Paid"),
  ("pending", "⏳", "Payment Pending"),
  ("payment pending", "⏳", "Payment Pending"),
  ("authorized", "🔒", "Payment Authorized"),
  ("refunded", "↩️", "Payment Refunded"),
  ("voided", "❌", "Payment Voided"),
  ("partially_paid", "💰", "Partially Paid")]

/-- app.py fulfillment_status_map. -/
def fulfillment_status_map : List (String × String × String) := [
  ("fulfilled", "🚀", "Fulfilled"),
  ("unfulfilled", "📦", "Unfulfilled"),
  ("partially_fulfilled", "📤", "Partially Fulfilled"),
  ("partially fulfilled", "📤", "Partially Fulfilled"),
  ("in_progress", "⚙️", "In Progress"),
  ("on_hold", "⏸️", "On Hold"),
  ("scheduled", "📅", "Scheduled")]

/-- The (emoji, text) annotation chosen by create_status_update: a
falsy status gives the Unknown marker; otherwise the status is
lowercased and looked up, with the generic fallback showing the
lowered value in title case. -/
def statusBadge (status_map : List (String × String × String))
    (status : Option String) : String × String :=
  match status with
  | none => ("❓", "Unknown")
  | some s =>
    if s = "" then ("❓", "Unknown")
    else
      match lookupKey status_map (pyLower s) with
      | some ann => ann
      | none => ("📝", pyTitle (pyLower s))

/-- The detail-appending loop of create_status_update: one bullet line
per detail with a truthy value. -/
def appendDetails (base : String) (details : List (String × String)) : String :=
  details.foldl
    (fun acc kv => if kv.2 = "" then acc else acc ++ "\n• " ++ kv.1 ++ ": " ++ kv.2)
    base

/-- app.py create_status_update.  The wall-clock time string (which the
code renders with strftime) is passed in explicitly. -/
def create_status_update (status_type : String) (status : Option String)
    (details : List (String × String)) (time_now : String) : String :=
  let status_map := if status_type = "payment" then payment_status_map
    else fulfillment_status_map
  let pfx := if status_type = "payment" then "💳 *Payment Status:*"
    else "📦 *Fulfillment Status:*"
  let ann := statusBadge status_map status
  appendDetails (pfx ++ " " ++ ann.1 ++ " **" ++ ann.2 ++ "** • " ++ time_now) details

/-- The order payload fields that shopify_webhook reads (after the
code's unwrapping of a possible outer order key).  Absent JSON fields
are none. -/
structure OrderData where
  name : Option String
  order_number : Option String
  id : Option String
  financial_status : Option String
  fulfillment_status : Option String
  gateway : Option String
  tracking_numbers : Option (List String)
  tracking_number : Option String
  tracking_company : Option String
deriving Repr, DecidableEq

/-- The order-number extraction of shopify_webhook: the name field is
consulted first, then order_number, then id, each kept only when
truthy. -/
def orderNumberOf (od : OrderData) : Option String :=
  if pyTruthy od.name then od.name
  else if pyTruthy od.order_number then od.order_number
  else if pyTruthy od.id then od.id
  else none

/-- app.py status_mapping: vendor status value to canonical wording. -/
def status_mapping : List (String × String) := [
  ("pending", "payment pending"),
  ("partially_fulfilled", "partially fulfilled"),
  ("authorized", "authorized"),
  ("paid", "paid"),
  ("refunded", "refunded"),
  ("voided", "voided"),
  ("fulfilled", "fulfilled"),
  ("unfulfilled", "unfulfilled")]

/-- The per-domain normalization in shopify_webhook: a falsy raw value
becomes None, otherwise the lowered value is looked up in
status_mapping with the raw value itself as the default. -/
def normalizedStatus (raw : String) : Option String :=
  if raw = "" then none
  else some ((lookupKey status_mapping (pyLower raw)).getD raw)

/-- The normalized payment status of a payload. -/
def paymentStatusOf (od : OrderData) : Option String :=
  normalizedStatus (od.financial_status.getD "")

/-- The normalized fulfillment status of a payload. -/
def fulfillmentStatusOf (od : OrderData) : Option String :=
  normalizedStatus (od.fulfillment_status.getD "")

/-- The details dict built for a payment update: the gateway when
truthy. -/
def paymentDetails (od : OrderData) : List (String × String) :=
  if pyTruthy od.gateway then [("Gateway", od.gateway.getD "")] else []

/-- The tracking-number list built for a fulfillment update: the
tracking_numbers field when truthy, else a singleton of the
tracking_number field when truthy, else empty. -/
def trackingNumbers (od : OrderData) : List String :=
  match od.tracking_numbers with
  | some l =>
    if l = [] then
      (if pyTruthy od.tracking_number then [od.tracking_number.getD ""] else [])
    else l
  | none => if pyTruthy od.tracking_number then [od.tracking_number.getD ""] else []

/-- Python str.join with a comma separator. -/
def joinComma : List String → String
  | [] => ""
  | [x] => x
  | x :: rest => x ++ ", " ++ joinComma rest

/-- The details dict built for a fulfillment update. -/
def fulfillmentDetails (od : OrderData) : List (String × String) :=
  (if trackingNumbers od = [] then []
   else [("Tracking", joinComma ((trackingNumbers od).filter (fun t => t != "")))])
  ++ (if pyTruthy od.tracking_company then [("Carrier", od.tracking_company.getD "")]
      else [])

/-- One chat.postMessage reply as the code sends it: the hardcoded
configured channel, the thread timestamp, and the text. -/
structure Reply where
  channel : String
  thread_ts : String
  text : String
deriving Repr, DecidableEq

/-- Whether the Slack send succeeds for the (at most one) payment call
and the (at most one) fulfillment call of a single webhook event. -/
structure SendOutcome where
  payment : Bool
  fulfillment : Bool
deriving Repr, DecidableEq

/-- State after one per-domain block of the handler: the store, the
local mapping variable, the replies attempted, and the
updates_posted contribution. -/
structure StepOut where
  store : Store
  mapping : OrderMapping
  replies : List Reply
  posted : Bool
deriving Repr, DecidableEq

/-- The structured HTTP outcome of shopify_webhook. -/
inductive WebhookResult where
  | rejectedNoOrder : WebhookResult
  | deferred : String → WebhookResult
  | accepted : String → Bool → WebhookResult
deriving Repr, DecidableEq

/-- The HTTP status code the code attaches to each outcome. -/
def httpStatus : WebhookResult → Nat
  | .rejectedNoOrder => 400
  | .deferred _ => 202
  | .accepted _ _ => 200

/-- The ok field of the JSON body, when the body carries one. -/
def okField : WebhookResult → Option Bool
  | .rejectedNoOrder => none
  | .deferred _ => some false
  | .accepted _ _ => some true

/-- Everything observable about one handler invocation: the HTTP
outcome, the resulting store, and the replies sent to Slack. -/
structure WebhookOutput where
  result : WebhookResult
  store : Store
  replies : List Reply
deriving Repr, DecidableEq

/-- The payment block of shopify_webhook: skip when the status is
falsy, the literal unknown, or equal to the recorded last payment;
otherwise attempt the reply and, only on confirmed success, rewrite
the stored mapping with the new last_payment and the old
last_fulfillment. -/
def handlePayment (cfg : String) (store : Store) (key : String) (m : OrderMapping)
    (ps : Option String) (od : OrderData) (ok : Bool) (t : String) : StepOut :=
  match ps with
  | none => ⟨store, m, [], false⟩
  | some p =>
    if p = "" ∨ p = "unknown" then ⟨store, m, [], false⟩
    else if some p = m.last_payment then ⟨store, m, [], false⟩
    else if ok then
      ⟨save_order_mapping cfg store key m.ts (some p) m.last_fulfillment,
        { m with last_payment := some p },
        [⟨cfg, m.ts, create_status_update "payment" (some p) (paymentDetails od) t⟩],
        true⟩
    else
      ⟨store, m,
        [⟨cfg, m.ts, create_status_update "payment" (some p) (paymentDetails od) t⟩],
        false⟩

/-- The fulfillment block of shopify_webhook, symmetric to the payment
block: on confirmed success the stored mapping is rewritten with the
old last_payment and the new last_fulfillment. -/
def handleFulfillment (cfg : String) (store : Store) (key : String) (m : OrderMapping)
    (fs : Option String) (od : OrderData) (ok : Bool) (t : String) : StepOut :=
  match fs with
  | none => ⟨store, m, [], false⟩
  | some f =>
    if f = "" ∨ f = "unknown" then ⟨store, m, [], false⟩
    else if some f = m.last_fulfillment then ⟨store, m, [], false⟩
    else if ok then
      ⟨save_order_mapping cfg store key m.ts m.last_payment (some f),
        { m with last_fulfillment := some f },
        [⟨cfg, m.ts, create_status_update "fulfillment" (some f) (fulfillmentDetails od) t⟩],
        true⟩
    else
      ⟨store, m,
        [⟨cfg, m.ts, create_status_update "fulfillment" (some f) (fulfillmentDetails od) t⟩],
        false⟩

/-- The two per-domain blocks in sequence, and the 200 response. -/
def processDomains (cfg : String) (store : Store) (key : String) (m : OrderMapping)
    (ps fs : Option String) (od : OrderData) (send : SendOutcome) (t : String) :
    WebhookOutput :=
  let o1 := handlePayment cfg store key m ps od send.payment t
  let o2 := handleFulfillment cfg o1.store key o1.mapping fs od send.fulfillment t
  ⟨.accepted key (o1.posted || o2.posted), o2.store, o1.replies ++ o2.replies⟩

/-- app.py shopify_webhook on one parsed event.  The topic header is
read by the code but never consulted afterwards; the channel history
and the send outcomes stand for the two outbound Slack calls. -/
def shopify_webhook (cfg : String) (store : Store) (topic : String) (od : OrderData)
    (history : List SlackMsg) (send : SendOutcome) (t : String) : WebhookOutput :=
  match orderNumberOf od with
  | none => ⟨.rejectedNoOrder, store, []⟩
  | some raw =>
    match get_order_mapping store (cleanOrderNumber raw) with
    | some m =>
      processDomains cfg store (cleanOrderNumber raw) m
        (paymentStatusOf od) (fulfillmentStatusOf od) od send t
    | none =>
      match find_order_message_in_channel history (cleanOrderNumber raw) with
      | some thread_ts =>
        processDomains cfg
          (save_order_mapping cfg store (cleanOrderNumber raw) thread_ts none none)
          (cleanOrderNumber raw)
          { ts := thread_ts, channel := cfg, last_payment := none,
            last_fulfillment := none }
          (paymentStatusOf od) (fulfillmentStatusOf od) od send t
      | none => ⟨.deferred (cleanOrderNumber raw), store, []⟩

/-- The last announced payment value recorded for an order, viewed
through the store (None both when no mapping exists and when the
mapping records null). -/
def lastPaymentIn (s : Store) (k : String) : Option String :=
  (lookupKey s k).bind OrderMapping.last_payment

/-- The last announced fulfillment value recorded for an order. -/
def lastFulfillmentIn (s : Store) (k : String) : Option String :=
  (lookupKey s k).bind OrderMapping.last_fulfillment

/-- The fields of a mapping the dispatch logic reads: its thread
timestamp and the two last-status values.  The channel field is
excluded because the code never reads it back (see claim C10). -/
def mview (m : OrderMapping) : String × Option String × Option String :=
  (m.ts, m.last_payment, m.last_fulfillment)

/-- Repeated delivery of one fixed event: each delivery may get its own
send outcomes and timestamp; the final store and every reply sent
along the way are collected. -/
def redeliver (cfg : String) (topic : String) (od : OrderData)
    (history : List SlackMsg) :
    Store → List (SendOutcome × String) → Store × List Reply
  | s, [] => (s, [])
  | s, (snd, t) :: rest =>
    let o := shopify_webhook cfg s topic od history snd t
    ((redeliver cfg topic od history o.store rest).1,
      o.replies ++ (redeliver cfg topic od history o.store rest).2)

/-! Basic store lemmas. -/

theorem lookup_putKey {α : Type} (l : List (String × α)) (key k : String) (v : α) :
    lookupKey (putKey l key v) k = if key = k then some v else lookupKey l k := by
  induction l with
  | nil => by_cases h : key = k <;> simp [putKey, lookupKey, h]
  | cons hd tl ih =>
    rcases hd with ⟨a, w⟩
    by_cases h1 : a = key
    · subst h1
      by_cases h2 : a = k <;> simp [putKey, lookupKey, h2]
    · by_cases h2 : a = k
      · subst h2
        have hne : ¬ key = a := fun hh => h1 hh.symm
        simp [putKey, lookupKey, h1, hne]
      · simp [putKey, lookupKey, h1, h2, ih]

/-! The Thread Locator scans in the delivered order. -/

theorem findRoot_eq_find? (c : String) (ms : List SlackMsg) :
    findRoot c ms = (ms.find? (fun m => msgMatches m c)).map SlackMsg.ts := by
  induction ms with
  | nil => rfl
  | cons m rest ih =>
    cases hm : msgMatches m c <;>
      simp [findRoot, List.find?_cons, hm, ih]

/-! Lemmas about the two per-domain blocks. -/

theorem lookup_save (cfg : String) (s : Store) (key ts : String)
    (lp lf : Option String) (k : String) :
    lookupKey (save_order_mapping cfg s key ts lp lf) k =
      if key = k then some ⟨ts, cfg, lp, lf⟩ else lookupKey s k := by
  simp [save_order_mapping, lookup_putKey]

theorem handlePayment_not_ok (cfg : String) (store : Store) (key : String)
    (m : OrderMapping) (ps : Option String) (od : OrderData) (t : String) :
    (handlePayment cfg store key m ps od false t).store = store ∧
    (handlePayment cfg store key m ps od false t).mapping = m := by
  cases ps with
  | none => exact ⟨rfl, rfl⟩
  | some p =>
    simp only [handlePayment]
    split
    · exact ⟨rfl, rfl⟩
    · split
      · exact ⟨rfl, rfl⟩
      · simp

theorem handleFulfillment_not_ok (cfg : String) (store : Store) (key : String)
    (m : OrderMapping) (fs : Option String) (od : OrderData) (t : String) :
    (handleFulfillment cfg store key m fs od false t).store = store ∧
    (handleFulfillment cfg store key m fs od false t).mapping = m := by
  cases fs with
  | none => exact ⟨rfl, rfl⟩
  | some f =>
    simp only [handleFulfillment]
    split
    · exact ⟨rfl, rfl⟩
    · split
      · exact ⟨rfl, rfl⟩
      · simp

theorem handleFulfillment_lastPayment (cfg : String) (s : Store) (key : String)
    (m : OrderMapping) (fs : Option String) (od : OrderData) (ok : Bool) (t : String)
    (h : lastPaymentIn s key = m.last_payment) (k : String) :
    lastPaymentIn (handleFulfillment cfg s key m fs od ok t).store k =
      lastPaymentIn s k := by
  cases fs with
  | none => rfl
  | some f =>
    simp only [handleFulfillment]
    split
    · rfl
    · split
      · rfl
      · split
        · simp only [lastPaymentIn, lookup_save]
          by_cases hk : key = k
          · subst hk
            rw [if_pos rfl]
            exact h.symm
          · rw [if_neg hk]
        · rfl

theorem handlePayment_lastFulfillment (cfg : String) (s : Store) (key : String)
    (m : OrderMapping) (ps : Option String) (od : OrderData) (ok : Bool) (t : String)
    (h : lastFulfillmentIn s key = m.last_fulfillment) (k : String) :
    lastFulfillmentIn (handlePayment cfg s key m ps od ok t).store k =
      lastFulfillmentIn s k := by
  cases ps with
  | none => rfl
  | some p =>
    simp only [handlePayment]
    split
    · rfl
    · split
      · rfl
      · split
        · simp only [lastFulfillmentIn, lookup_save]
          by_cases hk : key = k
          · subst hk
            rw [if_pos rfl]
            exact h.symm
          · rw [if_neg hk]
        · rfl

theorem lastIn_save_fresh (cfg : String) (s : Store) (key ts : String)
    (h : lookupKey s key = none) (k : String) :
    lastPaymentIn (save_order_mapping cfg s key ts none none) k = lastPaymentIn s k ∧
    lastFulfillmentIn (save_order_mapping cfg s key ts none none) k =
      lastFulfillmentIn s k := by
  constructor <;>
  · simp only [lastPaymentIn, lastFulfillmentIn, lookup_save]
    by_cases hk : key = k
    · subst hk; simp [h]
    · simp [hk]

/-! Webhook-level preservation of the per-domain last values. -/

theorem webhook_preserves_lastPayment (cfg : String) (store : Store) (topic : String)
    (od : OrderData) (history : List SlackMsg) (send : SendOutcome) (t : String)
    (hinert : ∀ s' key m',
      (handlePayment cfg s' key m' (paymentStatusOf od) od send.payment t).store = s' ∧
      (handlePayment cfg s' key m' (paymentStatusOf od) od send.payment t).mapping = m')
    (k : String) :
    lastPaymentIn (shopify_webhook cfg store topic od history send t).store k =
      lastPaymentIn store k := by
  cases horder : orderNumberOf od with
  | none => simp only [shopify_webhook, horder]
  | some raw =>
    cases hmap : get_order_mapping store (cleanOrderNumber raw) with
    | some m =>
      simp only [shopify_webhook, horder, hmap, processDomains]
      rw [(hinert store (cleanOrderNumber raw) m).1,
        (hinert store (cleanOrderNumber raw) m).2]
      refine handleFulfillment_lastPayment cfg store (cleanOrderNumber raw) m
        (fulfillmentStatusOf od) od send.fulfillment t ?_ k
      simp only [get_order_mapping] at hmap
      simp [lastPaymentIn, hmap]
    | none =>
      cases hfind : find_order_message_in_channel history (cleanOrderNumber raw) with
      | some ts0 =>
        simp only [shopify_webhook, horder, hmap, hfind, processDomains]
        rw [(hinert _ (cleanOrderNumber raw) _).1, (hinert _ (cleanOrderNumber raw) _).2]
        simp only [get_order_mapping] at hmap
        have h1 := handleFulfillment_lastPayment cfg
          (save_order_mapping cfg store (cleanOrderNumber raw) ts0 none none)
          (cleanOrderNumber raw) ⟨ts0, cfg, none, none⟩
          (fulfillmentStatusOf od) od send.fulfillment t
          (by simp [lastPaymentIn, lookup_save]) k
        rw [h1]
        exact (lastIn_save_fresh cfg store (cleanOrderNumber raw) ts0 hmap k).1
      | none => simp only [shopify_webhook, horder, hmap, hfind]

theorem webhook_preserves_lastFulfillment (cfg : String) (store : Store) (topic : String)
    (od : OrderData) (history : List SlackMsg) (send : SendOutcome) (t : String)
    (hinert : ∀ s' key m',
      (handleFulfillment cfg s' key m' (fulfillmentStatusOf od) od send.fulfillment t).store
        = s')
    (k : String) :
    lastFulfillmentIn (shopify_webhook cfg store topic od history send t).store k =
      lastFulfillmentIn store k := by
  cases horder : orderNumberOf od with
  | none => simp only [shopify_webhook, horder]
  | some raw =>
    cases hmap : get_order_mapping store (cleanOrderNumber raw) with
    | some m =>
      simp only [shopify_webhook, horder, hmap, processDomains]
      rw [hinert _ (cleanOrderNumber raw) _]
      refine handlePayment_lastFulfillment cfg store (cleanOrderNumber raw) m
        (paymentStatusOf od) od send.payment t ?_ k
      simp only [get_order_mapping] at hmap
      simp [lastFulfillmentIn, hmap]
    | none =>
      cases hfind : find_order_message_in_channel history (cleanOrderNumber raw) with
      | some ts0 =>
        simp only [shopify_webhook, horder, hmap, hfind, processDomains]
        rw [hinert _ (cleanOrderNumber raw) _]
        simp only [get_order_mapping] at hmap
        have h1 := handlePayment_lastFulfillment cfg
          (save_order_mapping cfg store (cleanOrderNumber raw) ts0 none none)
          (cleanOrderNumber raw) ⟨ts0, cfg, none, none⟩
          (paymentStatusOf od) od send.payment t
          (by simp [lastFulfillmentIn, lookup_save]) k
        rw [h1]
        exact (lastIn_save_fresh cfg store (cleanOrderNumber raw) ts0 hmap k).2
      | none => simp only [shopify_webhook, horder, hmap, hfind]

/-! Claim C2: the Message Matcher has no blacklist. -/

/-- C2 counterexample: the claim asserts that
is_order_announcement applied to the text Order hash-1278 fulfilled,
tracking ABC and the key 1278 is false because of a blacklist of
status-update terms; the code has no blacklist and the hash-digits
pattern matches, so the value is true. -/
theorem blacklist_counterexample :
    is_order_announcement "Order #1278 fulfilled, tracking ABC" "1278" = true := by
  rfl

/-- C2 amended: the matcher applies no blacklist of status-update
terms; a text carrying such terms is still accepted whenever one of
the three extraction patterns yields the order key, and the Thread
Locator therefore does select such a message as the root: the spec's
own example text is matched and located. -/
theorem blacklist_absent_matcher_accepts :
    is_order_announcement "Order #1278 fulfilled, tracking ABC" "1278" = true ∧
    find_order_message_in_channel
      [⟨"Order #1278 fulfilled, tracking ABC", "55.000", none⟩] "1278" =
      some "55.000" := by
  exact ⟨rfl, rfl⟩

/-! Claim C3: the topic header is never consulted. -/

/-- C3 counterexample: the claim asserts that an event with the
fulfillment-only topic fulfillments/create posts no payment reply even
when the payload carries a financial_status differing from the
recorded last payment value; the code ignores the topic, and this
concrete event posts exactly one payment reply. -/
theorem topic_filter_counterexample :
    (shopify_webhook "C0A068PHZMY"
        [("1278", ⟨"111.0", "C0A068PHZMY", some "pending", some "fulfilled"⟩)]
        "fulfillments/create"
        ⟨some "#1278", none, none, some "paid", some "fulfilled", none, none, none, none⟩
        [] ⟨true, true⟩ "10:00 AM").replies =
      [⟨"C0A068PHZMY", "111.0", "💳 *Payment Status:* ✅ **Payment Paid** • 10:00 AM"⟩] := by
  rfl

/-- C3 amended: the handler reads the topic header but never consults
it: the outcome, the store, and the replies of shopify_webhook are
identical for any two topics, so every event is processed with all
domains eligible regardless of topic. -/
theorem topic_ignored (cfg : String) (store : Store) (topic1 topic2 : String)
    (od : OrderData) (history : List SlackMsg) (send : SendOutcome) (t : String) :
    shopify_webhook cfg store topic1 od history send t =
      shopify_webhook cfg store topic2 od history send t := by
  rfl

/-! Claim C4: the locator does not reverse the newest-first feed. -/

/-- C4 counterexample: the claim asserts that with two matching
non-reply messages in a newest-first history, the locator returns the
earliest (here timestamp 1.000); the code scans the feed in delivered
order and returns the newest match, timestamp 2.000. -/
theorem locator_scan_order_counterexample :
    find_order_message_in_channel
      [⟨"ST.order #1278 | newer", "2.000", none⟩,
       ⟨"ST.order #1278 | older", "1.000", none⟩] "1278" = some "2.000" ∧
    find_order_message_in_channel
      [⟨"ST.order #1278 | newer", "2.000", none⟩,
       ⟨"ST.order #1278 | older", "1.000", none⟩] "1278" ≠ some "1.000" := by
  exact ⟨rfl, by decide⟩

/-- C4 amended: the locator scans the fetched window in the order the
API delivered it (newest first) and returns the timestamp of the first
non-reply matching message of the feed, hence the most recently posted
match rather than the earliest. -/
theorem locator_returns_first_in_feed (messages : List SlackMsg) (order_number : String) :
    find_order_message_in_channel messages order_number =
      (messages.find? (fun m => msgMatches m (cleanOrderNumber order_number))).map
        SlackMsg.ts := by
  exact findRoot_eq_find? (cleanOrderNumber order_number) messages

/-! Claim C6: save_order_mapping overwrites; the callers compensate. -/

/-- C6 counterexample: the claim asserts that a save_order_mapping call
supplying only the payment domain preserves a previously recorded
fulfillment value; the code overwrites the whole mapping, so the
previously recorded fulfilled value is erased to null. -/
theorem save_overwrite_counterexample :
    (lookupKey
        [("1278", (⟨"1.0", "C0A068PHZMY", some "paid", some "fulfilled"⟩ : OrderMapping))]
        "1278").map OrderMapping.last_fulfillment = some (some "fulfilled") ∧
    (lookupKey
        (save_order_mapping "C0A068PHZMY"
          [("1278", ⟨"1.0", "C0A068PHZMY", some "paid", some "fulfilled"⟩)]
          "1278" "1.0" (some "pending") none)
        "1278").map OrderMapping.last_fulfillment = some none := by
  exact ⟨rfl, rfl⟩

/-! Claim C8: extraction order is name, then order_number, then id. -/

/-- C8 counterexample: the claim asserts the handler extracts from the
explicit order_number field first; on a payload carrying name hash-9
and order_number 7 the code takes the name field, not order_number. -/
theorem extraction_order_counterexample :
    orderNumberOf ⟨some "#9", some "7", some "3", none, none, none, none, none, none⟩ =
      some "#9" ∧
    orderNumberOf ⟨some "#9", some "7", some "3", none, none, none, none, none, none⟩ ≠
      some "7" := by
  exact ⟨rfl, by decide⟩

/-- C8 amended: the handler extracts the order key with the fallback
order name, then order_number, then id, each field taken only when
truthy; an event in which none of the three fields is truthy is
rejected with the 400 client-error outcome and leaves the store
untouched. -/
theorem extraction_name_first (p : OrderData) :
    (pyTruthy p.name = true → orderNumberOf p = p.name) ∧
    (pyTruthy p.name = false → pyTruthy p.order_number = true →
      orderNumberOf p = p.order_number) ∧
    (pyTruthy p.name = false → pyTruthy p.order_number = false →
      pyTruthy p.id = true → orderNumberOf p = p.id) ∧
    (pyTruthy p.name = false → pyTruthy p.order_number = false →
      pyTruthy p.id = false →
      ∀ cfg store topic history send t,
        shopify_webhook cfg store topic p history send t =
          ⟨.rejectedNoOrder, store, []⟩ ∧
        httpStatus (shopify_webhook cfg store topic p history send t).result = 400) := by
  refine ⟨fun h1 => ?_, fun h1 h2 => ?_, fun h1 h2 h3 => ?_, fun h1 h2 h3 => ?_⟩
  · simp [orderNumberOf, h1]
  · simp [orderNumberOf, h1, h2]
  · simp [orderNumberOf, h1, h2, h3]
  · intro cfg store topic history send t
    have hnone : orderNumberOf p = none := by simp [orderNumberOf, h1, h2, h3]
    have heq : shopify_webhook cfg store topic p history send t =
        ⟨.rejectedNoOrder, store, []⟩ := by
      simp only [shopify_webhook, hnone]
    exact ⟨heq, by rw [heq]; rfl⟩

/-- C8 witness: the amended fallback order at concrete payloads, and
the rejection of a payload with no identifier. -/
theorem extraction_name_first_witness :
    orderNumberOf ⟨some "#9", some "7", some "3", none, none, none, none, none, none⟩ =
      some "#9" ∧
    orderNumberOf ⟨none, some "7", some "3", none, none, none, none, none, none⟩ =
      some "7" ∧
    orderNumberOf ⟨some "", none, some "3", none, none, none, none, none, none⟩ =
      some "3" ∧
    shopify_webhook "C0A068PHZMY" [] "orders/updated"
        ⟨none, some "", none, some "paid", none, none, none, none, none⟩
        [] ⟨true, true⟩ "10:00 AM" =
      ⟨.rejectedNoOrder, [], []⟩ := by
  refine ⟨?_, ?_, ?_, ?_⟩
  · exact (extraction_name_first
      ⟨some "#9", some "7", some "3", none, none, none, none, none, none⟩).1 rfl
  · exact (extraction_name_first
      ⟨none, some "7", some "3", none, none, none, none, none, none⟩).2.1 rfl rfl
  · exact (extraction_name_first
      ⟨some "", none, some "3", none, none, none, none, none, none⟩).2.2.1 rfl rfl rfl
  · exact ((extraction_name_first
      ⟨none, some "", none, some "paid", none, none, none, none, none⟩).2.2.2 rfl rfl rfl
      "C0A068PHZMY" [] "orders/updated" [] ⟨true, true⟩ "10:00 AM").1

/-! Claim C9: the formatter lowercases but does not collapse spaces. -/

/-- C9 counterexample: the claim asserts internal whitespace is
collapsed before the table lookup, so spacing variants map to the same
text; the code only lowercases, and the double-spaced variant of
payment pending misses the table and falls back, giving a different
display text than the single-spaced value. -/
theorem whitespace_collapse_counterexample :
    create_status_update "payment" (some "payment  pending") [] "10:00 AM" =
      "💳 *Payment Status:* 📝 **Payment  Pending** • 10:00 AM" ∧
    create_status_update "payment" (some "payment pending") [] "10:00 AM" =
      "💳 *Payment Status:* ⏳ **Payment Pending** • 10:00 AM" ∧
    create_status_update "payment" (some "payment  pending") [] "10:00 AM" ≠
      create_status_update "payment" (some "payment pending") [] "10:00 AM" := by
  exact ⟨rfl, rfl, by decide⟩

/-- C9 amended: for a truthy rawStatus the formatter normalizes by
lower-casing only (no whitespace collapsing) before the table lookup,
so variants differing only in letter case map to the same annotated
text; values whose lowered form is absent from the domain's table fall
back to the generic pencil marker with the lowered value rendered in
title case. -/
theorem formatter_lowercases_only :
    (∀ d s1 s2 det t, s1 ≠ "" → s2 ≠ "" → pyLower s1 = pyLower s2 →
      create_status_update d (some s1) det t = create_status_update d (some s2) det t) ∧
    (∀ d s t, s ≠ "" →
      lookupKey (if d = "payment" then payment_status_map else fulfillment_status_map)
          (pyLower s) = none →
      create_status_update d (some s) [] t =
        (if d = "payment" then "💳 *Payment Status:*" else "📦 *Fulfillment Status:*") ++
          " " ++ "📝" ++ " **" ++ pyTitle (pyLower s) ++ "** • " ++ t) := by
  constructor
  · intro d s1 s2 det t h1 h2 hl
    simp only [create_status_update, statusBadge, if_neg h1, if_neg h2, hl]
  · intro d s t hs hlk
    simp only [create_status_update, statusBadge, if_neg hs, hlk, appendDetails,
      List.foldl]

/-- C9 witness: case variants of PAID agree, and the out-of-table value
shipped to falls back to the pencil marker in title case. -/
theorem formatter_lowercases_only_witness :
    create_status_update "payment" (some "PAID") [] "10:00 AM" =
      create_status_update "payment" (some "Paid") [] "10:00 AM" ∧
    create_status_update "payment" (some "shipped") [] "10:00 AM" =
      "💳 *Payment Status:*" ++ " " ++ "📝" ++ " **" ++ pyTitle (pyLower "shipped") ++
        "** • " ++ "10:00 AM" := by
  constructor
  · exact formatter_lowercases_only.1 "payment" "PAID" "Paid" [] "10:00 AM"
      (by decide) (by decide) (by decide)
  · have h := formatter_lowercases_only.2 "payment" "shipped" "10:00 AM"
      (by decide) (by decide)
    simpa using h

/-! Claim C5: a failed send leaves the recorded last value unchanged. -/

/-- C5: for every event and either status domain, when the reply send
for that domain fails the stored last value for that domain (viewed
through the store, null when no mapping exists) is left exactly at its
prior value for every order key, so a retried event carrying the same
status value will compare unequal again and attempt the send anew. -/
theorem send_failure_non_mutation (cfg : String) (store : Store) (topic : String)
    (od : OrderData) (history : List SlackMsg) (send : SendOutcome) (t : String) :
    (send.payment = false → ∀ k,
      lastPaymentIn (shopify_webhook cfg store topic od history send t).store k =
        lastPaymentIn store k) ∧
    (send.fulfillment = false → ∀ k,
      lastFulfillmentIn (shopify_webhook cfg store topic od history send t).store k =
        lastFulfillmentIn store k) := by
  constructor
  · intro hp k
    refine webhook_preserves_lastPayment cfg store topic od history send t ?_ k
    intro s' key m'
    rw [hp]
    exact handlePayment_not_ok cfg s' key m' (paymentStatusOf od) od t
  · intro hf k
    refine webhook_preserves_lastFulfillment cfg store topic od history send t ?_ k
    intro s' key m'
    rw [hf]
    exact (handleFulfillment_not_ok cfg s' key m' (fulfillmentStatusOf od) od t).1

/-- C5 witness: both sends fail on a concrete changed-status event for
a tracked order; both recorded last values stay at their prior
values. -/
theorem send_failure_non_mutation_witness :
    lastPaymentIn (shopify_webhook "C0A068PHZMY"
        [("1278", ⟨"11.22", "C0A068PHZMY", some "pending", some "unfulfilled"⟩)]
        "orders/updated"
        ⟨some "#1278", none, none, some "paid", some "fulfilled", none, none, none, none⟩
        [] ⟨false, false⟩ "10:00 AM").store "1278" =
      lastPaymentIn
        [("1278", ⟨"11.22", "C0A068PHZMY", some "pending", some "unfulfilled"⟩)] "1278" ∧
    lastFulfillmentIn (shopify_webhook "C0A068PHZMY"
        [("1278", ⟨"11.22", "C0A068PHZMY", some "pending", some "unfulfilled"⟩)]
        "orders/updated"
        ⟨some "#1278", none, none, some "paid", some "fulfilled", none, none, none, none⟩
        [] ⟨false, false⟩ "10:00 AM").store "1278" =
      lastFulfillmentIn
        [("1278", ⟨"11.22", "C0A068PHZMY", some "pending", some "unfulfilled"⟩)] "1278" := by
  constructor
  · exact (send_failure_non_mutation "C0A068PHZMY"
      [("1278", ⟨"11.22", "C0A068PHZMY", some "pending", some "unfulfilled"⟩)]
      "orders/updated"
      ⟨some "#1278", none, none, some "paid", some "fulfilled", none, none, none, none⟩
      [] ⟨false, false⟩ "10:00 AM").1 rfl "1278"
  · exact (send_failure_non_mutation "C0A068PHZMY"
      [("1278", ⟨"11.22", "C0A068PHZMY", some "pending", some "unfulfilled"⟩)]
      "orders/updated"
      ⟨some "#1278", none, none, some "paid", some "fulfilled", none, none, none, none⟩
      [] ⟨false, false⟩ "10:00 AM").2 rfl "1278"

/-- C6 amended: save_order_mapping itself has overwrite semantics (the
counterexample), but every call the webhook handler makes passes the
other domain's currently recorded value explicitly, so at handler
level an event whose payload lacks one domain's status leaves that
domain's recorded last value unchanged for every order key. -/
theorem handler_preserves_other_domain (cfg : String) (store : Store) (topic : String)
    (od : OrderData) (history : List SlackMsg) (send : SendOutcome) (t : String) :
    (od.financial_status.getD "" = "" → ∀ k,
      lastPaymentIn (shopify_webhook cfg store topic od history send t).store k =
        lastPaymentIn store k) ∧
    (od.fulfillment_status.getD "" = "" → ∀ k,
      lastFulfillmentIn (shopify_webhook cfg store topic od history send t).store k =
        lastFulfillmentIn store k) := by
  constructor
  · intro h k
    refine webhook_preserves_lastPayment cfg store topic od history send t ?_ k
    intro s' key m'
    have hps : paymentStatusOf od = none := by
      simp [paymentStatusOf, normalizedStatus, h]
    rw [hps]
    exact ⟨rfl, rfl⟩
  · intro h k
    refine webhook_preserves_lastFulfillment cfg store topic od history send t ?_ k
    intro s' key m'
    have hfs : fulfillmentStatusOf od = none := by
      simp [fulfillmentStatusOf, normalizedStatus, h]
    rw [hfs]
    rfl

/-- C6 witness: a payment-only event (no fulfillment_status in the
payload) posted successfully leaves the previously recorded
fulfillment value intact, and symmetrically. -/
theorem handler_preserves_other_domain_witness :
    lastFulfillmentIn (shopify_webhook "C0A068PHZMY"
        [("1278", ⟨"11.22", "C0A068PHZMY", some "pending", some "fulfilled"⟩)]
        "orders/updated"
        ⟨some "#1278", none, none, some "paid", none, none, none, none, none⟩
        [] ⟨true, true⟩ "10:00 AM").store "1278" =
      lastFulfillmentIn
        [("1278", ⟨"11.22", "C0A068PHZMY", some "pending", some "fulfilled"⟩)] "1278" ∧
    lastPaymentIn (shopify_webhook "C0A068PHZMY"
        [("1278", ⟨"11.22", "C0A068PHZMY", some "paid", some "unfulfilled"⟩)]
        "orders/updated"
        ⟨some "#1278", none, none, none, some "fulfilled", none, none, none, none⟩
        [] ⟨true, true⟩ "10:00 AM").store "1278" =
      lastPaymentIn
        [("1278", ⟨"11.22", "C0A068PHZMY", some "paid", some "unfulfilled"⟩)] "1278" := by
  constructor
  · exact (handler_preserves_other_domain "C0A068PHZMY"
      [("1278", ⟨"11.22", "C0A068PHZMY", some "pending", some "fulfilled"⟩)]
      "orders/updated"
      ⟨some "#1278", none, none, some "paid", none, none, none, none, none⟩
      [] ⟨true, true⟩ "10:00 AM").2 rfl "1278"
  · exact (handler_preserves_other_domain "C0A068PHZMY"
      [("1278", ⟨"11.22", "C0A068PHZMY", some "paid", some "unfulfilled"⟩)]
      "orders/updated"
      ⟨some "#1278", none, none, none, some "fulfilled", none, none, none, none⟩
      [] ⟨true, true⟩ "10:00 AM").1 rfl "1278"

/-! Claim C7: unresolved orders give the deferred 202 outcome. -/

/-- C7: when the payload yields an order key, no mapping is stored for
it, and the channel scan finds no matching root message, the handler
returns the deferred outcome carrying HTTP status 202 and the false ok
flag (distinguishable from the 200 acceptance and the 400 rejection),
leaves the store untouched, and posts no reply. -/
theorem deferred_on_unresolved (cfg : String) (store : Store) (topic : String)
    (od : OrderData) (history : List SlackMsg) (send : SendOutcome) (t : String)
    (raw : String)
    (h1 : orderNumberOf od = some raw)
    (h2 : get_order_mapping store (cleanOrderNumber raw) = none)
    (h3 : find_order_message_in_channel history (cleanOrderNumber raw) = none) :
    shopify_webhook cfg store topic od history send t =
      ⟨.deferred (cleanOrderNumber raw), store, []⟩ ∧
    httpStatus (shopify_webhook cfg store topic od history send t).result = 202 ∧
    okField (shopify_webhook cfg store topic od history send t).result = some false := by
  have heq : shopify_webhook cfg store topic od history send t =
      ⟨.deferred (cleanOrderNumber raw), store, []⟩ := by
    simp only [shopify_webhook, h1, h2, h3]
  exact ⟨heq, by rw [heq]; rfl, by rw [heq]; rfl⟩

/-- C7 witness: an order with no stored mapping and an empty channel
history is deferred with status 202, an untouched store, and no
replies. -/
theorem deferred_on_unresolved_witness :
    shopify_webhook "C0A068PHZMY" [] "orders/updated"
        ⟨some "#9999", none, none, some "paid", none, none, none, none, none⟩
        [] ⟨true, true⟩ "10:00 AM" =
      ⟨.deferred "9999", [], []⟩ ∧
    httpStatus (shopify_webhook "C0A068PHZMY" [] "orders/updated"
        ⟨some "#9999", none, none, some "paid", none, none, none, none, none⟩
        [] ⟨true, true⟩ "10:00 AM").result = 202 ∧
    okField (shopify_webhook "C0A068PHZMY" [] "orders/updated"
        ⟨some "#9999", none, none, some "paid", none, none, none, none, none⟩
        [] ⟨true, true⟩ "10:00 AM").result = some false :=
  deferred_on_unresolved "C0A068PHZMY" [] "orders/updated"
    ⟨some "#9999", none, none, some "paid", none, none, none, none, none⟩
    [] ⟨true, true⟩ "10:00 AM" "#9999" rfl rfl rfl

/-! Claim C10: everything lives in the single configured channel. -/

theorem handlePayment_replies_channel (cfg : String) (s : Store) (key : String)
    (m : OrderMapping) (ps : Option String) (od : OrderData) (ok : Bool) (t : String) :
    ∀ r ∈ (handlePayment cfg s key m ps od ok t).replies, r.channel = cfg := by
  cases ps with
  | none => exact fun r hr => absurd hr (List.not_mem_nil r)
  | some p =>
    simp only [handlePayment]
    split
    · simp
    · split
      · simp
      · split
        · intro r hr
          simp only [List.mem_singleton] at hr
          subst hr
          rfl
        · intro r hr
          simp only [List.mem_singleton] at hr
          subst hr
          rfl

theorem handleFulfillment_replies_channel (cfg : String) (s : Store) (key : String)
    (m : OrderMapping) (fs : Option String) (od : OrderData) (ok : Bool) (t : String) :
    ∀ r ∈ (handleFulfillment cfg s key m fs od ok t).replies, r.channel = cfg := by
  cases fs with
  | none => exact fun r hr => absurd hr (List.not_mem_nil r)
  | some f =>
    simp only [handleFulfillment]
    split
    · simp
    · split
      · simp
      · split
        · intro r hr
          simp only [List.mem_singleton] at hr
          subst hr
          rfl
        · intro r hr
          simp only [List.mem_singleton] at hr
          subst hr
          rfl

theorem save_channelInv (cfg : String) (s : Store) (key ts : String)
    (lp lf : Option String)
    (h : ∀ k m, lookupKey s k = some m → m.channel = cfg) :
    ∀ k m, lookupKey (save_order_mapping cfg s key ts lp lf) k = some m →
      m.channel = cfg := by
  intro k m hk
  rw [lookup_save] at hk
  by_cases hkk : key = k
  · rw [if_pos hkk] at hk
    cases hk
    rfl
  · rw [if_neg hkk] at hk
    exact h k m hk

theorem handlePayment_channelInv (cfg : String) (s : Store) (key : String)
    (m : OrderMapping) (ps : Option String) (od : OrderData) (ok : Bool) (t : String)
    (h : ∀ k m', lookupKey s k = some m' → m'.channel = cfg) :
    ∀ k m', lookupKey (handlePayment cfg s key m ps od ok t).store k = some m' →
      m'.channel = cfg := by
  cases ps with
  | none => exact h
  | some p =>
    simp only [handlePayment]
    split
    · exact h
    · split
      · exact h
      · split
        · exact save_channelInv cfg s key m.ts (some p) m.last_fulfillment h
        · exact h

theorem handleFulfillment_channelInv (cfg : String) (s : Store) (key : String)
    (m : OrderMapping) (fs : Option String) (od : OrderData) (ok : Bool) (t : String)
    (h : ∀ k m', lookupKey s k = some m' → m'.channel = cfg) :
    ∀ k m', lookupKey (handleFulfillment cfg s key m fs od ok t).store k = some m' →
      m'.channel = cfg := by
  cases fs with
  | none => exact h
  | some f =>
    simp only [handleFulfillment]
    split
    · exact h
    · split
      · exact h
      · split
        · exact save_channelInv cfg s key m.ts m.last_payment (some f) h
        · exact h

/-- C10: every reply the handler sends goes to the configured channel
(chat.postMessage hardcodes it, never the channel recorded in the
mapping), and whenever every mapping in the store records the
configured channel, the same holds after the handler runs — so every
mapping ever written records that one channel, and the mapping's
channel field never influences where a reply goes. -/
theorem single_channel_invariant (cfg : String) (store : Store) (topic : String)
    (od : OrderData) (history : List SlackMsg) (send : SendOutcome) (t : String) :
    (∀ r ∈ (shopify_webhook cfg store topic od history send t).replies,
      r.channel = cfg) ∧
    ((∀ k m, lookupKey store k = some m → m.channel = cfg) →
      ∀ k m, lookupKey (shopify_webhook cfg store topic od history send t).store k =
        some m → m.channel = cfg) := by
  cases horder : orderNumberOf od with
  | none =>
    simp only [shopify_webhook, horder]
    exact ⟨by simp, fun h => h⟩
  | some raw =>
    cases hmap : get_order_mapping store (cleanOrderNumber raw) with
    | some m =>
      simp only [shopify_webhook, horder, hmap, processDomains]
      constructor
      · intro r hr
        rcases List.mem_append.mp hr with hr1 | hr2
        · exact handlePayment_replies_channel cfg store (cleanOrderNumber raw) m
            (paymentStatusOf od) od send.payment t r hr1
        · exact handleFulfillment_replies_channel cfg _ (cleanOrderNumber raw) _
            (fulfillmentStatusOf od) od send.fulfillment t r hr2
      · intro h
        exact handleFulfillment_channelInv cfg _ (cleanOrderNumber raw) _
          (fulfillmentStatusOf od) od send.fulfillment t
          (handlePayment_channelInv cfg store (cleanOrderNumber raw) m
            (paymentStatusOf od) od send.payment t h)
    | none =>
      cases hfind : find_order_message_in_channel history (cleanOrderNumber raw) with
      | some ts0 =>
        simp only [shopify_webhook, horder, hmap, hfind, processDomains]
        constructor
        · intro r hr
          rcases List.mem_append.mp hr with hr1 | hr2
          · exact handlePayment_replies_channel cfg _ (cleanOrderNumber raw) _
              (paymentStatusOf od) od send.payment t r hr1
          · exact handleFulfillment_replies_channel cfg _ (cleanOrderNumber raw) _
              (fulfillmentStatusOf od) od send.fulfillment t r hr2
        · intro h
          exact handleFulfillment_channelInv cfg _ (cleanOrderNumber raw) _
            (fulfillmentStatusOf od) od send.fulfillment t
            (handlePayment_channelInv cfg _ (cleanOrderNumber raw) _
              (paymentStatusOf od) od send.payment t
              (save_channelInv cfg store (cleanOrderNumber raw) ts0 none none h))
      | none =>
        simp only [shopify_webhook, horder, hmap, hfind]
        exact ⟨by simp, fun h => h⟩

/-- C10 witness: on a concrete run that both discovers a fresh mapping
and posts a payment reply, the reply's channel and the stored
mapping's channel are the configured channel. -/
theorem single_channel_invariant_witness :
    (⟨"C0A068PHZMY", "77.88",
        "💳 *Payment Status:* ✅ **Payment Paid** • 10:00 AM"⟩ : Reply).channel =
      "C0A068PHZMY" ∧
    (⟨"77.88", "C0A068PHZMY", some "paid", none⟩ : OrderMapping).channel =
      "C0A068PHZMY" := by
  constructor
  · refine (single_channel_invariant "C0A068PHZMY" [] "orders/updated"
      ⟨some "#1278", none, none, some "paid", none, none, none, none, none⟩
      [⟨"ST.order #1278 | test", "77.88", none⟩] ⟨true, true⟩ "10:00 AM").1
      ⟨"C0A068PHZMY", "77.88", "💳 *Payment Status:* ✅ **Payment Paid** • 10:00 AM"⟩ ?_
    exact List.Mem.head _
  · refine (single_channel_invariant "C0A068PHZMY" [] "orders/updated"
      ⟨some "#1278", none, none, some "paid", none, none, none, none, none⟩
      [⟨"ST.order #1278 | test", "77.88", none⟩] ⟨true, true⟩ "10:00 AM").2
      (fun k m hk => Option.noConfusion hk) "1278"
      ⟨"77.88", "C0A068PHZMY", some "paid", none⟩ rfl

/-! Claim C1: machinery for idempotence under re-delivery. -/

theorem handlePayment_agrees (cfg : String) (s : Store) (key : String)
    (m : OrderMapping) (ps : Option String) (od : OrderData) (ok : Bool) (t : String)
    (h : (lookupKey s key).map mview = some (mview m)) :
    (lookupKey (handlePayment cfg s key m ps od ok t).store key).map mview =
      some (mview (handlePayment cfg s key m ps od ok t).mapping) := by
  cases ps with
  | none => exact h
  | some p =>
    simp only [handlePayment]
    split
    · exact h
    · split
      · exact h
      · split
        · simp [lookup_save, mview]
        · exact h

theorem handleFulfillment_agrees (cfg : String) (s : Store) (key : String)
    (m : OrderMapping) (fs : Option String) (od : OrderData) (ok : Bool) (t : String)
    (h : (lookupKey s key).map mview = some (mview m)) :
    (lookupKey (handleFulfillment cfg s key m fs od ok t).store key).map mview =
      some (mview (handleFulfillment cfg s key m fs od ok t).mapping) := by
  cases fs with
  | none => exact h
  | some f =>
    simp only [handleFulfillment]
    split
    · exact h
    · split
      · exact h
      · split
        · simp [lookup_save, mview]
        · exact h

theorem handleFulfillment_mapping_lastPayment (cfg : String) (s : Store) (key : String)
    (m : OrderMapping) (fs : Option String) (od : OrderData) (ok : Bool) (t : String) :
    (handleFulfillment cfg s key m fs od ok t).mapping.last_payment = m.last_payment := by
  cases fs with
  | none => rfl
  | some f =>
    simp only [handleFulfillment]
    split
    · rfl
    · split
      · rfl
      · split
        · rfl
        · rfl

theorem handlePayment_absorb (cfg cfg2 : String) (s s' : Store) (key key2 : String)
    (m m' : OrderMapping) (ps : Option String) (od : OrderData) (ok' : Bool)
    (t t' : String)
    (h : m'.last_payment =
      (handlePayment cfg s key m ps od true t).mapping.last_payment) :
    handlePayment cfg2 s' key2 m' ps od ok' t' = ⟨s', m', [], false⟩ := by
  cases ps with
  | none => rfl
  | some p =>
    by_cases h1 : p = "" ∨ p = "unknown"
    · simp [handlePayment, h1]
    · by_cases h2 : some p = m.last_payment
      · have hm : m'.last_payment = some p := by
          simp only [handlePayment, if_neg h1, if_pos h2] at h
          rw [h, ← h2]
        simp [handlePayment, h1, hm]
      · have hm : m'.last_payment = some p := by
          simp [handlePayment, if_neg h1, if_neg h2] at h
          exact h
        simp [handlePayment, h1, hm]

theorem handleFulfillment_absorb (cfg cfg2 : String) (s s' : Store) (key key2 : String)
    (m m' : OrderMapping) (fs : Option String) (od : OrderData) (ok' : Bool)
    (t t' : String)
    (h : m'.last_fulfillment =
      (handleFulfillment cfg s key m fs od true t).mapping.last_fulfillment) :
    handleFulfillment cfg2 s' key2 m' fs od ok' t' = ⟨s', m', [], false⟩ := by
  cases fs with
  | none => rfl
  | some f =>
    by_cases h1 : f = "" ∨ f = "unknown"
    · simp [handleFulfillment, h1]
    · by_cases h2 : some f = m.last_fulfillment
      · have hm : m'.last_fulfillment = some f := by
          simp only [handleFulfillment, if_neg h1, if_pos h2] at h
          rw [h, ← h2]
        simp [handleFulfillment, h1, hm]
      · have hm : m'.last_fulfillment = some f := by
          simp [handleFulfillment, if_neg h1, if_neg h2] at h
          exact h
        simp [handleFulfillment, h1, hm]

theorem processDomains_rerun (cfg : String) (s : Store) (key : String)
    (m : OrderMapping) (ps fs : Option String) (od : OrderData) (t1 : String)
    (hag : (lookupKey s key).map mview = some (mview m)) (send2 : SendOutcome)
    (t2 : String) :
    ∃ entry,
      lookupKey (processDomains cfg s key m ps fs od ⟨true, true⟩ t1).store key =
        some entry ∧
      processDomains cfg (processDomains cfg s key m ps fs od ⟨true, true⟩ t1).store key
          entry ps fs od send2 t2 =
        ⟨.accepted key false,
          (processDomains cfg s key m ps fs od ⟨true, true⟩ t1).store, []⟩ := by
  have hag1 := handlePayment_agrees cfg s key m ps od true t1 hag
  have hag2 := handleFulfillment_agrees cfg (handlePayment cfg s key m ps od true t1).store
    key (handlePayment cfg s key m ps od true t1).mapping fs od true t1 hag1
  have hagAll : (lookupKey (processDomains cfg s key m ps fs od ⟨true, true⟩ t1).store
      key).map mview =
      some (mview (handleFulfillment cfg (handlePayment cfg s key m ps od true t1).store
        key (handlePayment cfg s key m ps od true t1).mapping fs od true t1).mapping) :=
    hag2
  cases hlk : lookupKey (processDomains cfg s key m ps fs od ⟨true, true⟩ t1).store key with
  | none =>
    rw [hlk] at hagAll
    exact absurd hagAll (by simp)
  | some entry =>
    rw [hlk] at hagAll
    have hview : mview entry =
        mview (handleFulfillment cfg (handlePayment cfg s key m ps od true t1).store
          key (handlePayment cfg s key m ps od true t1).mapping fs od true t1).mapping := by
      simpa using hagAll
    have hlp : entry.last_payment =
        (handlePayment cfg s key m ps od true t1).mapping.last_payment := by
      have e1 := congrArg (fun x => x.2.1) hview
      simp only [mview] at e1
      rw [e1]
      exact handleFulfillment_mapping_lastPayment cfg
        (handlePayment cfg s key m ps od true t1).store key
        (handlePayment cfg s key m ps od true t1).mapping fs od true t1
    have hlf : entry.last_fulfillment =
        (handleFulfillment cfg (handlePayment cfg s key m ps od true t1).store key
          (handlePayment cfg s key m ps od true t1).mapping fs od true t1).mapping.last_fulfillment := by
      have e2 := congrArg (fun x => x.2.2) hview
      simpa only [mview] using e2
    have e1 := handlePayment_absorb cfg cfg s
      (processDomains cfg s key m ps fs od ⟨true, true⟩ t1).store key key m entry ps od
      send2.payment t1 t2 hlp
    have e2 := handleFulfillment_absorb cfg cfg
      (handlePayment cfg s key m ps od true t1).store
      (processDomains cfg s key m ps fs od ⟨true, true⟩ t1).store key key
      (handlePayment cfg s key m ps od true t1).mapping entry fs od
      send2.fulfillment t1 t2 hlf
    refine ⟨entry, rfl, ?_⟩
    simp only [processDomains] at e1 e2
    simp only [processDomains, e1, e2]
    simp

theorem webhook_redelivery_fixed (cfg : String) (store : Store) (topic : String)
    (od : OrderData) (history : List SlackMsg) (t1 : String) (k : String) (u : Bool)
    (h : (shopify_webhook cfg store topic od history ⟨true, true⟩ t1).result =
      .accepted k u) (send2 : SendOutcome) (t2 : String) :
    (shopify_webhook cfg
        (shopify_webhook cfg store topic od history ⟨true, true⟩ t1).store
        topic od history send2 t2).replies = [] ∧
    (shopify_webhook cfg
        (shopify_webhook cfg store topic od history ⟨true, true⟩ t1).store
        topic od history send2 t2).store =
      (shopify_webhook cfg store topic od history ⟨true, true⟩ t1).store := by
  cases horder : orderNumberOf od with
  | none => simp [shopify_webhook, horder] at h
  | some raw =>
    cases hmap : get_order_mapping store (cleanOrderNumber raw) with
    | some m =>
      have hout : shopify_webhook cfg store topic od history ⟨true, true⟩ t1 =
          processDomains cfg store (cleanOrderNumber raw) m (paymentStatusOf od)
            (fulfillmentStatusOf od) od ⟨true, true⟩ t1 := by
        simp only [shopify_webhook, horder, hmap]
      have hag : (lookupKey store (cleanOrderNumber raw)).map mview = some (mview m) := by
        simp only [get_order_mapping] at hmap
        rw [hmap]
        rfl
      obtain ⟨entry, hlk, hrun2⟩ := processDomains_rerun cfg store (cleanOrderNumber raw)
        m (paymentStatusOf od) (fulfillmentStatusOf od) od t1 hag send2 t2
      rw [hout]
      have hrun2' : shopify_webhook cfg
          (processDomains cfg store (cleanOrderNumber raw) m (paymentStatusOf od)
            (fulfillmentStatusOf od) od ⟨true, true⟩ t1).store topic od history send2 t2 =
          ⟨.accepted (cleanOrderNumber raw) false,
            (processDomains cfg store (cleanOrderNumber raw) m (paymentStatusOf od)
              (fulfillmentStatusOf od) od ⟨true, true⟩ t1).store, []⟩ := by
        simp only [shopify_webhook, horder, get_order_mapping, hlk]
        exact hrun2
      rw [hrun2']
      exact ⟨rfl, rfl⟩
    | none =>
      cases hfind : find_order_message_in_channel history (cleanOrderNumber raw) with
      | some ts0 =>
        have hout : shopify_webhook cfg store topic od history ⟨true, true⟩ t1 =
            processDomains cfg
              (save_order_mapping cfg store (cleanOrderNumber raw) ts0 none none)
              (cleanOrderNumber raw) ⟨ts0, cfg, none, none⟩ (paymentStatusOf od)
              (fulfillmentStatusOf od) od ⟨true, true⟩ t1 := by
          simp only [shopify_webhook, horder, hmap, hfind]
        have hag : (lookupKey
            (save_order_mapping cfg store (cleanOrderNumber raw) ts0 none none)
            (cleanOrderNumber raw)).map mview =
            some (mview ⟨ts0, cfg, none, none⟩) := by
          simp [lookup_save]
        obtain ⟨entry, hlk, hrun2⟩ := processDomains_rerun cfg
          (save_order_mapping cfg store (cleanOrderNumber raw) ts0 none none)
          (cleanOrderNumber raw) ⟨ts0, cfg, none, none⟩ (paymentStatusOf od)
          (fulfillmentStatusOf od) od t1 hag send2 t2
        rw [hout]
        have hrun2' : shopify_webhook cfg
            (processDomains cfg
              (save_order_mapping cfg store (cleanOrderNumber raw) ts0 none none)
              (cleanOrderNumber raw) ⟨ts0, cfg, none, none⟩ (paymentStatusOf od)
              (fulfillmentStatusOf od) od ⟨true, true⟩ t1).store topic od history
              send2 t2 =
            ⟨.accepted (cleanOrderNumber raw) false,
              (processDomains cfg
                (save_order_mapping cfg store (cleanOrderNumber raw) ts0 none none)
                (cleanOrderNumber raw) ⟨ts0, cfg, none, none⟩ (paymentStatusOf od)
                (fulfillmentStatusOf od) od ⟨true, true⟩ t1).store, []⟩ := by
          simp only [shopify_webhook, horder, get_order_mapping, hlk]
          exact hrun2
        rw [hrun2']
        exact ⟨rfl, rfl⟩
      | none => simp [shopify_webhook, horder, hmap, hfind] at h

/-- C1: once one delivery of an event has been fully processed with
every send confirmed (the 200 acceptance outcome), any sequence of
re-deliveries of that identical event — same order number, same
financial_status and fulfillment_status, arbitrary send outcomes and
timestamps — posts zero additional replies and leaves the store
unchanged, because the handler compares each incoming normalized
status against the mapping's recorded last value and skips equal
values. -/
theorem idempotent_status_replies (cfg : String) (store : Store) (topic : String)
    (od : OrderData) (history : List SlackMsg) (t1 : String) (k : String) (u : Bool)
    (h : (shopify_webhook cfg store topic od history ⟨true, true⟩ t1).result =
      .accepted k u)
    (evs : List (SendOutcome × String)) :
    redeliver cfg topic od history
        (shopify_webhook cfg store topic od history ⟨true, true⟩ t1).store evs =
      ((shopify_webhook cfg store topic od history ⟨true, true⟩ t1).store, []) := by
  induction evs with
  | nil => rfl
  | cons e rest ih =>
    rcases e with ⟨snd, t2⟩
    have step := webhook_redelivery_fixed cfg store topic od history t1 k u h snd t2
    simp only [redeliver]
    rw [step.2, ih, step.1]
    rfl

/-- C1 witness: a tracked order receives a changed-status event whose
sends succeed; two further deliveries of the identical event (one with
succeeding sends, one with failing sends) produce no replies at all
and leave the store as it was after the first delivery. -/
theorem idempotent_status_replies_witness :
    redeliver "C0A068PHZMY" "orders/updated"
        ⟨some "#1278", none, none, some "paid", some "fulfilled", none, none, none, none⟩
        []
        (shopify_webhook "C0A068PHZMY"
          [("1278", ⟨"11.22", "C0A068PHZMY", some "pending", none⟩)] "orders/updated"
          ⟨some "#1278", none, none, some "paid", some "fulfilled", none, none, none, none⟩
          [] ⟨true, true⟩ "10:00 AM").store
        [(⟨true, true⟩, "10:05 AM"), (⟨false, false⟩, "10:06 AM")] =
      ((shopify_webhook "C0A068PHZMY"
          [("1278", ⟨"11.22", "C0A068PHZMY", some "pending", none⟩)] "orders/updated"
          ⟨some "#1278", none, none, some "paid", some "fulfilled", none, none, none, none⟩
          [] ⟨true, true⟩ "10:00 AM").store, []) :=
  idempotent_status_replies "C0A068PHZMY"
    [("1278", ⟨"11.22", "C0A068PHZMY", some "pending", none⟩)] "orders/updated"
    ⟨some "#1278", none, none, some "paid", some "fulfilled", none, none, none, none⟩
    [] "10:00 AM" "1278" true rfl
    [(⟨true, true⟩, "10:05 AM"), (⟨false, false⟩, "10:06 AM")]

end SlackReply
